import Mathlib

/-!
Shallow embedding of the device-shadow synchronization sample
(`samples/shadow.py`).  The mutable globals `shadow_value` (an optional
string, `None` meaning "no authoritative value observed yet") and
`disconnect_called` form the state; each callback handler becomes a pure
function from state to state paired with the ordered list of externally
visible events it emits (store mutations, outbound update publishes,
disconnect requests).  Shadow-document sections (`delta`, `reported`)
are association lists from property names to optional strings, where
`none` models a JSON null; Python truthiness of a retrieved value
(`if value:`) is `truthy`, and dict truthiness (`if d:`) is `dictTruthy`.
-/

namespace ShadowSample

/-- A shadow-document section: property name to value, `none` = JSON null. -/
abbrev Section := List (String × Option String)

/-- `iotshadow.ShadowState` as built by `change_shadow_value`. -/
structure ShadowStateDoc where
  reported : Option Section
  desired : Option Section
deriving DecidableEq, Repr

/-- `iotshadow.UpdateShadowRequest`. -/
structure UpdateShadowRequest where
  thing_name : String
  state : ShadowStateDoc
deriving DecidableEq, Repr

/-- The `state` member of `iotshadow.GetShadowResponse`. -/
structure GetShadowState where
  delta : Option Section
  reported : Option Section
deriving DecidableEq, Repr

/-- `iotshadow.GetShadowResponse`: `state` is `none` when absent/falsy. -/
structure GetShadowResponse where
  state : Option GetShadowState
deriving DecidableEq, Repr

/-- Externally visible events a handler emits, in program order. -/
inductive Event where
  | storeWrite (v : Option String)
  | publish (req : UpdateShadowRequest)
  | disconnectReq
deriving DecidableEq, Repr

/-- The mutable globals of the sample: `shadow_value` and `disconnect_called`. -/
structure AppState where
  shadow_value : Option String
  disconnect_called : Bool
deriving DecidableEq, Repr

/-- `SHADOW_VALUE_DEFAULT = "off"`. -/
def SHADOW_VALUE_DEFAULT : String := "off"

/-- Python truthiness of a retrieved dict value: `None` and `""` are falsy. -/
def truthy : Option String → Bool
  | none => false
  | some v => !(v == "")

/-- Python truthiness of an optional dict: `None` and `{}` are falsy. -/
def dictTruthy : Option Section → Bool
  | none => false
  | some d => !d.isEmpty

/-- `d.get(prop)`: `None` when the section is absent or lacks the key. -/
def dictGet (prop : String) (d : Option Section) : Option String :=
  match d with
  | none => none
  | some entries => (entries.lookup prop).join

/-- `exit(msg)`: sets `disconnect_called` and requests an MQTT disconnect.
Note the disconnect request is issued unconditionally on every call. -/
def exit (s : AppState) : AppState × List Event :=
  ({ s with disconnect_called := true }, [Event.disconnectReq])

/-- The `UpdateShadowRequest` built in `change_shadow_value`:
`reported` and `desired` both map the property to the same value. -/
def mkUpdateRequest (thing prop value : String) : UpdateShadowRequest :=
  { thing_name := thing
    state := { reported := some [(prop, some value)]
               desired := some [(prop, some value)] } }

/-- `change_shadow_value(value)`: under the lock, if the stored value equals
`value`, return without mutating or publishing; otherwise store `value`
(making the store initialized) and then publish an update request with
`reported == desired == value`. -/
def change_shadow_value (thing prop value : String) (s : AppState) :
    AppState × List Event :=
  if s.shadow_value = some value then
    (s, [])
  else
    ({ s with shadow_value := some value },
     [Event.storeWrite (some value), Event.publish (mkUpdateRequest thing prop value)])

/-- `set_local_value_due_to_initial_query(reported_value)`: store the value
without publishing. -/
def set_local_value_due_to_initial_query (v : Option String) (s : AppState) :
    AppState × List Event :=
  ({ s with shadow_value := v }, [Event.storeWrite v])

/-- The guard `response.state.delta` is truthy and
`response.state.delta.get(shadow_property)` is truthy. -/
def deltaHit (prop : String) (st : GetShadowState) : Bool :=
  dictTruthy st.delta && truthy (dictGet prop st.delta)

/-- The guard `response.state.reported` is truthy and
`response.state.reported.get(shadow_property)` is truthy. -/
def reportedHit (prop : String) (st : GetShadowState) : Bool :=
  dictTruthy st.reported && truthy (dictGet prop st.reported)

/-- `on_get_accepted(response)`: ignore the response when `shadow_value`
is already set; otherwise adopt a truthy delta value through
`change_shadow_value`, else adopt a truthy reported value without
publishing, else fall back to `change_shadow_value(SHADOW_VALUE_DEFAULT)`. -/
def on_get_accepted (thing prop : String) (resp : GetShadowResponse)
    (s : AppState) : AppState × List Event :=
  if s.shadow_value.isSome then
    (s, [])
  else
    match resp.state with
    | some st =>
        if deltaHit prop st then
          change_shadow_value thing prop ((dictGet prop st.delta).getD "") s
        else if reportedHit prop st then
          set_local_value_due_to_initial_query (dictGet prop st.reported) s
        else
          change_shadow_value thing prop SHADOW_VALUE_DEFAULT s
    | none => change_shadow_value thing prop SHADOW_VALUE_DEFAULT s

/-- `on_get_rejected(error)`: code 404 creates the shadow with the default
value via `change_shadow_value`; any other code calls `exit`. -/
def on_get_rejected (thing prop : String) (code : Nat) (s : AppState) :
    AppState × List Event :=
  if code = 404 then
    change_shadow_value thing prop SHADOW_VALUE_DEFAULT s
  else
    exit s

/-- `on_delta_event(delta)`: when `delta.state` is truthy and contains the
tracked property, a `None` value (deletion) routes the default through
`change_shadow_value`, any other value routes that value; otherwise no-op. -/
def on_delta_event (thing prop : String) (deltaState : Option Section)
    (s : AppState) : AppState × List Event :=
  match deltaState with
  | none => (s, [])
  | some d =>
      if !d.isEmpty && (d.lookup prop).isSome then
        match (d.lookup prop).getD none with
        | none => change_shadow_value thing prop SHADOW_VALUE_DEFAULT s
        | some v => change_shadow_value thing prop v s
      else
        (s, [])

/-- `on_publish_update(future)`: on success only logs; on failure calls
`exit`. -/
def on_publish_update (success : Bool) (s : AppState) : AppState × List Event :=
  if success then (s, []) else exit s

/-- One iteration of `user_input_thread_fn`: `exit`/`quit` shut down,
anything else routes through `change_shadow_value`. -/
def handle_user_input (thing prop line : String) (s : AppState) :
    AppState × List Event :=
  if line = "exit" ∨ line = "quit" then
    exit s
  else
    change_shadow_value thing prop line s

/-- The inbound or locally originated signals that can reach the handlers. -/
inductive Op where
  | deltaEvent (st : Option Section)
  | getAccepted (resp : GetShadowResponse)
  | getRejected (code : Nat)
  | userInput (line : String)
  | publishComplete (success : Bool)

/-- Dispatch one signal to its handler. -/
def step (thing prop : String) (s : AppState) : Op → AppState × List Event
  | Op.deltaEvent st => on_delta_event thing prop st s
  | Op.getAccepted resp => on_get_accepted thing prop resp s
  | Op.getRejected code => on_get_rejected thing prop code s
  | Op.userInput line => handle_user_input thing prop line s
  | Op.publishComplete ok => on_publish_update ok s

/-- Run a sequence of signals from a starting state. -/
def runOps (thing prop : String) (s : AppState) : List Op → AppState
  | [] => s
  | op :: rest => runOps thing prop (step thing prop s op).1 rest

/-- The operations of the `__main__` startup sequence, one constructor per
statement that issues or awaits an asynchronous operation. -/
inductive StartupStep where
  | awaitConnected
  | subscribeDelta
  | awaitSubscribeDelta
  | subscribeUpdateAccepted
  | subscribeUpdateRejected
  | awaitSubscribeUpdateAccepted
  | awaitSubscribeUpdateRejected
  | subscribeGetAccepted
  | subscribeGetRejected
  | awaitSubscribeGetAccepted
  | awaitSubscribeGetRejected
  | publishGet
  | awaitPublishGet
  | startUserInputThread
deriving DecidableEq, Repr

/-- The startup statements in the order `__main__` executes them; each
`await` step blocks on the named operation's completion future, so a step
occurs only after every earlier step has happened. -/
def startupSequence : List StartupStep :=
  [StartupStep.awaitConnected,
   StartupStep.subscribeDelta,
   StartupStep.awaitSubscribeDelta,
   StartupStep.subscribeUpdateAccepted,
   StartupStep.subscribeUpdateRejected,
   StartupStep.awaitSubscribeUpdateAccepted,
   StartupStep.awaitSubscribeUpdateRejected,
   StartupStep.subscribeGetAccepted,
   StartupStep.subscribeGetRejected,
   StartupStep.awaitSubscribeGetAccepted,
   StartupStep.awaitSubscribeGetRejected,
   StartupStep.publishGet,
   StartupStep.awaitPublishGet,
   StartupStep.startUserInputThread]

/-- `a` happens strictly before `b` in the startup sequence. -/
def startupBefore (a b : StartupStep) : Prop :=
  startupSequence.indexOf a < startupSequence.indexOf b

instance (a b : StartupStep) : Decidable (startupBefore a b) := by
  unfold startupBefore
  infer_instance

/-- When the stored value already equals the new value, `change_shadow_value`
returns early: no mutation, no events. -/
lemma change_shadow_value_of_eq (thing prop v : String) (s : AppState)
    (h : s.shadow_value = some v) :
    change_shadow_value thing prop v s = (s, []) := by
  simp [change_shadow_value, h]

/-- When the stored value differs from the new value, `change_shadow_value`
stores it and then publishes the update request. -/
lemma change_shadow_value_of_ne (thing prop v : String) (s : AppState)
    (h : s.shadow_value ≠ some v) :
    change_shadow_value thing prop v s =
      ({ s with shadow_value := some v },
       [Event.storeWrite (some v),
        Event.publish (mkUpdateRequest thing prop v)]) := by
  simp [change_shadow_value, h]

/-- Special case of the previous lemma for an uninitialized store. -/
lemma change_shadow_value_of_none (thing prop v : String) (s : AppState)
    (h : s.shadow_value = none) :
    change_shadow_value thing prop v s =
      ({ s with shadow_value := some v },
       [Event.storeWrite (some v),
        Event.publish (mkUpdateRequest thing prop v)]) :=
  change_shadow_value_of_ne thing prop v s (by simp [h])

/-- After `change_shadow_value thing prop v`, the stored value is `some v`. -/
lemma change_shadow_value_fst_value (thing prop v : String) (s : AppState) :
    (change_shadow_value thing prop v s).1.shadow_value = some v := by
  unfold change_shadow_value
  split
  case isTrue h => exact h
  case isFalse h => rfl

/-- `on_delta_event` on a present state dict is a three-way match on the
tracked property's entry: absent is a no-op, a null value routes the
default through the change path, a real value routes that value. -/
lemma on_delta_event_routes (thing prop : String) (d : Section) (s : AppState) :
    on_delta_event thing prop (some d) s =
      match d.lookup prop with
      | some none => change_shadow_value thing prop SHADOW_VALUE_DEFAULT s
      | some (some v) => change_shadow_value thing prop v s
      | none => (s, []) := by
  unfold on_delta_event
  cases hd : d.lookup prop with
  | none => simp [hd]
  | some val =>
      cases d with
      | nil => simp at hd
      | cons a as =>
          cases val with
          | none => simp [hd]
          | some v => simp [hd]

/-- Claim C1, counterexample: a delta event that mentions the tracked
property with a value equal to the current local value emits no events at
all — in particular no outbound publish is attempted, contradicting
"always publish for a real delta". -/
theorem claim_C1_counterexample :
    on_delta_event "t1" "color" (some [("color", some "on")])
        ⟨some "on", false⟩
      = (⟨some "on", false⟩, []) := by
  decide

/-- Claim C1, amended: a delta event that mentions the tracked property
routes through the change path — a null value routes the configured
default, any other value routes that value — and the change path skips
the publish when the routed value equals the current local value. -/
theorem claim_C1_amended (thing prop : String) (d : Section) (s : AppState) :
    (on_delta_event thing prop (some d) s =
       match d.lookup prop with
       | some none => change_shadow_value thing prop SHADOW_VALUE_DEFAULT s
       | some (some v) => change_shadow_value thing prop v s
       | none => (s, []))
    ∧ (∀ v, d.lookup prop = some (some v) → s.shadow_value = some v →
         on_delta_event thing prop (some d) s = (s, [])) := by
  refine ⟨on_delta_event_routes thing prop d s, fun v hv hs => ?_⟩
  rw [on_delta_event_routes, hv]
  exact change_shadow_value_of_eq thing prop v s hs

/-- Claim C1, witness for the amended theorem at a concrete input. -/
theorem claim_C1_amended_witness :
    on_delta_event "t1" "color" (some [("color", some "green")])
        ⟨some "green", false⟩
      = (⟨some "green", false⟩, []) :=
  (claim_C1_amended "t1" "color" [("color", some "green")]
      ⟨some "green", false⟩).2 "green" (by decide) (by decide)

/-- Claim C3: the change path publishes exactly when the compare-and-set
against the stored value changes it — an equal value makes no mutation and
emits nothing, a different value is stored and handed to the publisher —
and a second call in a row with the same value emits nothing. -/
theorem claim_C3 (thing prop v : String) (s : AppState) :
    (s.shadow_value = some v →
       change_shadow_value thing prop v s = (s, []))
    ∧ (s.shadow_value ≠ some v →
       change_shadow_value thing prop v s =
         ({ s with shadow_value := some v },
          [Event.storeWrite (some v),
           Event.publish (mkUpdateRequest thing prop v)]))
    ∧ change_shadow_value thing prop v (change_shadow_value thing prop v s).1
        = ((change_shadow_value thing prop v s).1, []) := by
  refine ⟨fun h => change_shadow_value_of_eq thing prop v s h,
          fun h => change_shadow_value_of_ne thing prop v s h, ?_⟩
  exact change_shadow_value_of_eq thing prop v _
    (change_shadow_value_fst_value thing prop v s)

/-- Claim C3, witness: a first call from a differing value stores and
publishes. -/
theorem claim_C3_witness :
    ((⟨none, false⟩ : AppState).shadow_value ≠ some "red")
    ∧ change_shadow_value "t1" "color" "red" ⟨none, false⟩
        = (⟨some "red", false⟩,
           [Event.storeWrite (some "red"),
            Event.publish (mkUpdateRequest "t1" "color" "red")]) :=
  ⟨by decide, (claim_C3 "t1" "color" "red" ⟨none, false⟩).2.1 (by decide)⟩

/-- Claim C4, counterexample: a second call to the shutdown routine issues
a further disconnect request — the routine sets `disconnect_called`
unconditionally and calls `mqtt_connection.disconnect()` on every call,
so only the completion flagging, not the disconnect request, is
first-call-only. -/
theorem claim_C4_counterexample :
    (exit (⟨some "off", false⟩ : AppState)).2 = [Event.disconnectReq]
    ∧ (exit (exit ⟨some "off", false⟩).1).2 = [Event.disconnectReq] := by
  decide

/-- Claim C4, amended: every call to the shutdown routine — not only the
first — issues a disconnect request; the `disconnect_called` flag is set
by the first call and never cleared, and the stored value is untouched. -/
theorem claim_C4_amended (s : AppState) :
    (exit s).2 = [Event.disconnectReq]
    ∧ (exit s).1.disconnect_called = true
    ∧ (exit (exit s).1).1.disconnect_called = true
    ∧ (exit s).1.shadow_value = s.shadow_value := by
  simp [exit]

/-- Claim C5: an initial-query success handled when the store is already
initialized returns without acting — the state is unchanged and no event
is emitted, regardless of the snapshot's contents. -/
theorem claim_C5 (thing prop : String) (resp : GetShadowResponse)
    (s : AppState) (h : s.shadow_value.isSome = true) :
    on_get_accepted thing prop resp s = (s, []) := by
  simp [on_get_accepted, h]

/-- Claim C5, witness: an initialized store ignores a snapshot that would
otherwise change it. -/
theorem claim_C5_witness :
    ((⟨some "blue", false⟩ : AppState).shadow_value.isSome = true)
    ∧ on_get_accepted "t1" "color"
        ⟨some ⟨some [("color", some "red")], none⟩⟩ ⟨some "blue", false⟩
        = (⟨some "blue", false⟩, []) :=
  ⟨rfl, claim_C5 "t1" "color"
      ⟨some ⟨some [("color", some "red")], none⟩⟩ ⟨some "blue", false⟩ rfl⟩

/-- Claim C2: on an initial-query success with the store uninitialized,
exactly one branch runs, in order: a truthy delta value is adopted and
published through the change path; else a truthy reported value is adopted
with no publish; else (including a missing state) the configured default
is adopted and published. -/
theorem claim_C2 (thing prop : String) (st : GetShadowState) (s : AppState)
    (h : s.shadow_value = none) :
    (∀ v, dictTruthy st.delta = true → dictGet prop st.delta = some v →
       truthy (dictGet prop st.delta) = true →
       on_get_accepted thing prop ⟨some st⟩ s =
         ({ s with shadow_value := some v },
          [Event.storeWrite (some v),
           Event.publish (mkUpdateRequest thing prop v)]))
    ∧ (∀ v, deltaHit prop st = false → dictTruthy st.reported = true →
         dictGet prop st.reported = some v →
         truthy (dictGet prop st.reported) = true →
       on_get_accepted thing prop ⟨some st⟩ s =
         ({ s with shadow_value := some v }, [Event.storeWrite (some v)]))
    ∧ (deltaHit prop st = false → reportedHit prop st = false →
       on_get_accepted thing prop ⟨some st⟩ s =
         ({ s with shadow_value := some SHADOW_VALUE_DEFAULT },
          [Event.storeWrite (some SHADOW_VALUE_DEFAULT),
           Event.publish (mkUpdateRequest thing prop SHADOW_VALUE_DEFAULT)]))
    ∧ on_get_accepted thing prop ⟨none⟩ s =
        ({ s with shadow_value := some SHADOW_VALUE_DEFAULT },
         [Event.storeWrite (some SHADOW_VALUE_DEFAULT),
          Event.publish (mkUpdateRequest thing prop SHADOW_VALUE_DEFAULT)]) := by
  have hns : s.shadow_value.isSome = false := by simp [h]
  refine ⟨fun v h1 h2 h3 => ?_, fun v hd h1 h2 h3 => ?_, fun hd hr => ?_, ?_⟩
  · have hq : deltaHit prop st = true := by simp [deltaHit, h1, h3]
    have : on_get_accepted thing prop ⟨some st⟩ s =
        change_shadow_value thing prop v s := by
      simp [on_get_accepted, hns, hq, h2]
    rw [this]
    exact change_shadow_value_of_none thing prop v s h
  · have hr : reportedHit prop st = true := by simp [reportedHit, h1, h3]
    simp [on_get_accepted, hns, hd, hr, set_local_value_due_to_initial_query, h2]
  · have : on_get_accepted thing prop ⟨some st⟩ s =
        change_shadow_value thing prop SHADOW_VALUE_DEFAULT s := by
      simp [on_get_accepted, hns, hd, hr]
    rw [this]
    exact change_shadow_value_of_none thing prop SHADOW_VALUE_DEFAULT s h
  · have : on_get_accepted thing prop ⟨none⟩ s =
        change_shadow_value thing prop SHADOW_VALUE_DEFAULT s := by
      simp [on_get_accepted, hns]
    rw [this]
    exact change_shadow_value_of_none thing prop SHADOW_VALUE_DEFAULT s h

/-- Claim C2, witness: a snapshot carrying only a delta value is adopted
and published. -/
theorem claim_C2_witness :
    on_get_accepted "t1" "color"
        ⟨some ⟨some [("color", some "red")], none⟩⟩ ⟨none, false⟩
      = (⟨some "red", false⟩,
         [Event.storeWrite (some "red"),
          Event.publish (mkUpdateRequest "t1" "color" "red")]) :=
  (claim_C2 "t1" "color" ⟨some [("color", some "red")], none⟩
      ⟨none, false⟩ rfl).1 "red" (by decide) (by decide) (by decide)

/-- Claim C6: an initial-query rejection with code 404 is treated exactly
as the default branch of a successful response — the change path with the
configured default, which adopts and publishes it when the store is
uninitialized — while any other code routes to `exit`, emitting only the
disconnect request and no shadow traffic. -/
theorem claim_C6 (thing prop : String) (code : Nat) (s : AppState) :
    (code = 404 →
       on_get_rejected thing prop code s =
         change_shadow_value thing prop SHADOW_VALUE_DEFAULT s)
    ∧ (code = 404 → s.shadow_value = none →
       on_get_rejected thing prop code s =
         ({ s with shadow_value := some SHADOW_VALUE_DEFAULT },
          [Event.storeWrite (some SHADOW_VALUE_DEFAULT),
           Event.publish (mkUpdateRequest thing prop SHADOW_VALUE_DEFAULT)]))
    ∧ (code ≠ 404 →
       on_get_rejected thing prop code s =
         ({ s with disconnect_called := true }, [Event.disconnectReq])) := by
  refine ⟨fun hc => by simp [on_get_rejected, hc], fun hc hn => ?_,
          fun hc => by simp [on_get_rejected, hc, exit]⟩
  have : on_get_rejected thing prop code s =
      change_shadow_value thing prop SHADOW_VALUE_DEFAULT s := by
    simp [on_get_rejected, hc]
  rw [this]
  exact change_shadow_value_of_none thing prop SHADOW_VALUE_DEFAULT s hn

/-- Claim C6, witness: code 500 triggers shutdown with no publish. -/
theorem claim_C6_witness :
    on_get_rejected "t1" "color" 500 ⟨some "off", false⟩
      = (⟨some "off", true⟩, [Event.disconnectReq]) :=
  (claim_C6 "t1" "color" 500 ⟨some "off", false⟩).2.2 (by decide)

/-- Claim C7: every update request the change path publishes sets
`reported` and `desired` to the same single-property map; the event trace
is either empty or the store write followed by the publish (mutation
happens before the publish is submitted); and the publish-completion
handler on success emits nothing and leaves the state alone. -/
theorem claim_C7 (thing prop v : String) (s : AppState) :
    (∀ req, Event.publish req ∈ (change_shadow_value thing prop v s).2 →
       req.state.reported = req.state.desired
       ∧ req.state.reported = some [(prop, some v)])
    ∧ ((change_shadow_value thing prop v s).2 = []
       ∨ (change_shadow_value thing prop v s).2 =
           [Event.storeWrite (some v),
            Event.publish (mkUpdateRequest thing prop v)])
    ∧ on_publish_update true s = (s, []) := by
  refine ⟨fun req hreq => ?_, ?_, rfl⟩
  · by_cases hv : s.shadow_value = some v
    · rw [change_shadow_value_of_eq thing prop v s hv] at hreq
      simp at hreq
    · rw [change_shadow_value_of_ne thing prop v s hv] at hreq
      simp [mkUpdateRequest] at hreq
      subst hreq
      exact ⟨rfl, rfl⟩
  · by_cases hv : s.shadow_value = some v
    · exact Or.inl (by rw [change_shadow_value_of_eq thing prop v s hv])
    · exact Or.inr (by rw [change_shadow_value_of_ne thing prop v s hv])

/-- Claim C7, witness: the concrete request published for value "red" has
equal `reported` and `desired` sections. -/
theorem claim_C7_witness :
    (mkUpdateRequest "t1" "color" "red").state.reported
        = (mkUpdateRequest "t1" "color" "red").state.desired
    ∧ (mkUpdateRequest "t1" "color" "red").state.reported
        = some [("color", some "red")] :=
  (claim_C7 "t1" "color" "red" ⟨none, false⟩).1
    (mkUpdateRequest "t1" "color" "red") (by decide)

/-- Claim C8: in the startup sequence, the delta subscription completes
before the update subscriptions are issued, the update subscriptions
complete before the get subscriptions are issued, the get subscriptions
complete before the get request is published, and the update
subscriptions complete before either source of update publishes — the
get request (whose response handlers publish) and the user-input thread
— begins. -/
theorem claim_C8 :
    startupBefore StartupStep.awaitConnected StartupStep.subscribeDelta
    ∧ startupBefore StartupStep.awaitSubscribeDelta
        StartupStep.subscribeUpdateAccepted
    ∧ startupBefore StartupStep.awaitSubscribeUpdateAccepted
        StartupStep.subscribeGetAccepted
    ∧ startupBefore StartupStep.awaitSubscribeUpdateRejected
        StartupStep.subscribeGetAccepted
    ∧ startupBefore StartupStep.awaitSubscribeGetAccepted
        StartupStep.publishGet
    ∧ startupBefore StartupStep.awaitSubscribeGetRejected
        StartupStep.publishGet
    ∧ startupBefore StartupStep.awaitSubscribeUpdateAccepted
        StartupStep.publishGet
    ∧ startupBefore StartupStep.awaitSubscribeUpdateRejected
        StartupStep.publishGet
    ∧ startupBefore StartupStep.awaitSubscribeUpdateAccepted
        StartupStep.startUserInputThread
    ∧ startupBefore StartupStep.awaitSubscribeUpdateRejected
        StartupStep.startUserInputThread
    ∧ startupBefore StartupStep.awaitPublishGet
        StartupStep.startUserInputThread := by
  decide

/-- Every single handler dispatch keeps the store initialized once it is. -/
lemma step_preserves_initialized (thing prop : String) (op : Op)
    (s : AppState) (h : s.shadow_value.isSome = true) :
    (step thing prop s op).1.shadow_value.isSome = true := by
  have hc : ∀ v : String,
      (change_shadow_value thing prop v s).1.shadow_value.isSome = true := by
    intro v
    rw [change_shadow_value_fst_value]
    rfl
  cases op with
  | deltaEvent st =>
      cases st with
      | none => exact h
      | some d =>
          simp only [step, on_delta_event]
          split
          · split
            · exact hc _
            · exact hc _
          · exact h
  | getAccepted resp => simp [step, on_get_accepted, h]
  | getRejected code =>
      simp only [step, on_get_rejected]
      split
      · exact hc _
      · exact h
  | userInput line =>
      simp only [step, handle_user_input]
      split
      · exact h
      · exact hc _
  | publishComplete ok =>
      cases ok with
      | true => exact h
      | false => exact h

/-- Claim C9: once the stored value is set, no sequence of delta events,
initial-query results, local change requests, publish completions or
shutdown requests ever reverts it to the unset state. -/
theorem claim_C9 (thing prop : String) (ops : List Op) (s : AppState)
    (h : s.shadow_value.isSome = true) :
    (runOps thing prop s ops).shadow_value.isSome = true := by
  revert s
  induction ops with
  | nil => exact fun s h => h
  | cons op rest ih =>
      exact fun s h => ih _ (step_preserves_initialized thing prop op s h)

/-- Claim C9, witness: a run mixing a delta event, user input, a late
initial-query response and a quit keeps the store initialized. -/
theorem claim_C9_witness :
    ((⟨some "off", false⟩ : AppState).shadow_value.isSome = true)
    ∧ (runOps "t1" "color" ⟨some "off", false⟩
        [Op.deltaEvent (some [("color", some "blue")]),
         Op.userInput "blue",
         Op.getAccepted ⟨some ⟨none, some [("color", some "red")]⟩⟩,
         Op.publishComplete true,
         Op.userInput "quit"]).shadow_value.isSome = true :=
  ⟨rfl, claim_C9 "t1" "color"
      [Op.deltaEvent (some [("color", some "blue")]),
       Op.userInput "blue",
       Op.getAccepted ⟨some ⟨none, some [("color", some "red")]⟩⟩,
       Op.publishComplete true,
       Op.userInput "quit"] ⟨some "off", false⟩ rfl⟩

/-- Claim C10: the two inbound entry points treat the empty string
asymmetrically — a delta event mapping the property to `""` routes the
empty string through the change path, while a successful initial query
mapping it to `""` in the delta or reported section skips that branch and
falls through to the default path. -/
theorem claim_C10 (thing prop : String) (s t : AppState)
    (h : t.shadow_value = none) :
    on_delta_event thing prop (some [(prop, some "")]) s
      = change_shadow_value thing prop "" s
    ∧ on_get_accepted thing prop ⟨some ⟨some [(prop, some "")], none⟩⟩ t
      = change_shadow_value thing prop SHADOW_VALUE_DEFAULT t
    ∧ on_get_accepted thing prop ⟨some ⟨none, some [(prop, some "")]⟩⟩ t
      = change_shadow_value thing prop SHADOW_VALUE_DEFAULT t := by
  have ht : t.shadow_value.isSome = false := by simp [h]
  have hlk : List.lookup prop [(prop, some "")] = some (some "") := by
    simp [List.lookup]
  refine ⟨?_, ?_, ?_⟩
  · rw [on_delta_event_routes, hlk]
  · have hd : deltaHit prop ⟨some [(prop, some "")], none⟩ = false := by
      simp [deltaHit, dictTruthy, dictGet, truthy, hlk]
    have hr : reportedHit prop ⟨some [(prop, some "")], none⟩ = false := by
      simp [reportedHit, dictTruthy]
    simp [on_get_accepted, ht, hd, hr]
  · have hd : deltaHit prop ⟨none, some [(prop, some "")]⟩ = false := by
      simp [deltaHit, dictTruthy]
    have hr : reportedHit prop ⟨none, some [(prop, some "")]⟩ = false := by
      simp [reportedHit, dictTruthy, dictGet, truthy, hlk]
    simp [on_get_accepted, ht, hd, hr]

/-- Claim C10, witness: concrete empty-string inputs at both entry
points. -/
theorem claim_C10_witness :
    on_delta_event "t1" "color" (some [("color", some "")]) ⟨some "on", false⟩
      = change_shadow_value "t1" "color" "" ⟨some "on", false⟩
    ∧ on_get_accepted "t1" "color"
        ⟨some ⟨some [("color", some "")], none⟩⟩ ⟨none, false⟩
      = change_shadow_value "t1" "color" SHADOW_VALUE_DEFAULT ⟨none, false⟩ :=
  ⟨(claim_C10 "t1" "color" ⟨some "on", false⟩ ⟨none, false⟩ rfl).1,
   (claim_C10 "t1" "color" ⟨some "on", false⟩ ⟨none, false⟩ rfl).2.1⟩

end ShadowSample
